import Mathlib

/-!
Verification development for the tender-retrieval and economics repository.
Each source function used by a claim is shallowly embedded as an executable
Lean definition; theorems at the end settle the claims.
-/

namespace Craft

/-! ### Calendar dates and the strptime model (src/infrastructure/parsers/http_parser.py, _parse_real_date) -/

/-- A parsed calendar date-time, as produced by datetime.strptime. -/
structure PDateTime where
  year : Nat
  month : Nat
  day : Nat
  hour : Nat
  minute : Nat
deriving DecidableEq

/-- Gregorian leap-year rule used by datetime's day-of-month validation. -/
def isLeapYear (y : Nat) : Bool :=
  y % 4 = 0 && (y % 100 ≠ 0 || y % 400 = 0)

/-- Days in a month, as validated by the datetime constructor. -/
def daysInMonth (y m : Nat) : Nat :=
  if m = 2 then (if isLeapYear y then 29 else 28)
  else if m = 4 || m = 6 || m = 9 || m = 11 then 30
  else 31

/-- Date validity check performed by the datetime constructor inside strptime. -/
def validDate (dt : PDateTime) : Bool :=
  1 ≤ dt.month && dt.month ≤ 12 && 1 ≤ dt.day && dt.day ≤ daysInMonth dt.year dt.month
    && dt.hour ≤ 23 && dt.minute ≤ 59

/-- Numeric value of a list of decimal digit characters. -/
def digitsVal (cs : List Char) : Nat :=
  cs.foldl (fun a c => a * 10 + (c.toNat - 48)) 0

/-- Format tokens for the strptime formats used by _parse_real_date:
day, month, 4-digit year, hour, minute, and literal separator characters. -/
inductive FTok where
  | fd
  | fm
  | fY
  | fH
  | fMin
  | flit (c : Char)
deriving DecidableEq

/-- Run a strptime format against the input characters. Numeric fields accept
one or two digits (greedy, with backtracking) within strptime's per-field
ranges; %Y takes exactly four digits; literal characters must match exactly;
the whole input must be consumed (otherwise "unconverted data remains"). -/
def runFmt : List FTok → List Char → PDateTime → Option PDateTime
  | [], [], dt => some dt
  | [], _ :: _, _ => none
  | FTok.flit c :: ts, xs, dt =>
    match xs with
    | [] => none
    | x :: r => if x = c then runFmt ts r dt else none
  | FTok.fY :: ts, xs, dt =>
    let pre := xs.take 4
    if pre.length = 4 && pre.all Char.isDigit then
      runFmt ts (xs.drop 4) { dt with year := digitsVal pre }
    else none
  | FTok.fd :: ts, xs, dt =>
    [2, 1].findSome? (fun n =>
      let pre := xs.take n
      let v := digitsVal pre
      if pre.length = n && pre.all Char.isDigit && 1 ≤ v && v ≤ 31 then
        runFmt ts (xs.drop n) { dt with day := v }
      else none)
  | FTok.fm :: ts, xs, dt =>
    [2, 1].findSome? (fun n =>
      let pre := xs.take n
      let v := digitsVal pre
      if pre.length = n && pre.all Char.isDigit && 1 ≤ v && v ≤ 12 then
        runFmt ts (xs.drop n) { dt with month := v }
      else none)
  | FTok.fH :: ts, xs, dt =>
    [2, 1].findSome? (fun n =>
      let pre := xs.take n
      let v := digitsVal pre
      if pre.length = n && pre.all Char.isDigit && v ≤ 23 then
        runFmt ts (xs.drop n) { dt with hour := v }
      else none)
  | FTok.fMin :: ts, xs, dt =>
    [2, 1].findSome? (fun n =>
      let pre := xs.take n
      let v := digitsVal pre
      if pre.length = n && pre.all Char.isDigit && v ≤ 59 then
        runFmt ts (xs.drop n) { dt with minute := v }
      else none)

/-- datetime.strptime restricted to the formats of _parse_real_date: parse the
whole string by the format, then validate the calendar date. -/
def strptime (s : String) (fmt : List FTok) : Option PDateTime :=
  match runFmt fmt s.toList { year := 1900, month := 1, day := 1, hour := 0, minute := 0 } with
  | none => none
  | some dt => if validDate dt then some dt else none

/-- Regex tokens for the date patterns of _parse_real_date: a captured digit
group with a repetition range, a literal character, or one-or-more whitespace. -/
inductive RTok where
  | group (lo hi : Nat)
  | lit (c : Char)
  | spaces
deriving DecidableEq

/-- Match a token list at the start of the input, returning the captured
groups. Groups and whitespace are greedy with backtracking, as in re. -/
def matchToks : List RTok → List Char → Option (List String)
  | [], _ => some []
  | RTok.lit c :: ts, xs =>
    match xs with
    | [] => none
    | x :: r => if x = c then matchToks ts r else none
  | RTok.spaces :: ts, xs =>
    let m := (xs.takeWhile Char.isWhitespace).length
    (List.range' 1 m).reverse.findSome? (fun n => matchToks ts (xs.drop n))
  | RTok.group lo hi :: ts, xs =>
    (List.range' lo (hi + 1 - lo)).reverse.findSome? (fun n =>
      let pre := xs.take n
      if pre.length = n && pre.all Char.isDigit then
        (matchToks ts (xs.drop n)).map (fun gs => pre.asString :: gs)
      else none)

/-- re.search: try the pattern at each start position, leftmost first. -/
def regexSearch (pat : List RTok) (s : String) : Option (List String) :=
  s.toList.tails.findSome? (fun suffix => matchToks pat suffix)

/-- The six (regex, strptime format) pairs of _parse_real_date, in source order. -/
def datePatterns : List (List RTok × List FTok × List FTok) :=
  [ ([RTok.group 1 2, RTok.lit ('.'), RTok.group 1 2, RTok.lit ('.'), RTok.group 4 4,
      RTok.spaces, RTok.group 1 2, RTok.lit (':'), RTok.group 2 2],
     [FTok.fd, FTok.flit ('.'), FTok.fm, FTok.flit ('.'), FTok.fY,
      FTok.flit (' '), FTok.fH, FTok.flit (':'), FTok.fMin],
     [FTok.fd, FTok.flit ('.'), FTok.fm, FTok.flit ('.'), FTok.fY]),
    ([RTok.group 1 2, RTok.lit ('.'), RTok.group 1 2, RTok.lit ('.'), RTok.group 4 4],
     [FTok.fd, FTok.flit ('.'), FTok.fm, FTok.flit ('.'), FTok.fY],
     [FTok.fd, FTok.flit ('.'), FTok.fm, FTok.flit ('.'), FTok.fY]),
    ([RTok.group 1 2, RTok.lit ('/'), RTok.group 1 2, RTok.lit ('/'), RTok.group 4 4,
      RTok.spaces, RTok.group 1 2, RTok.lit (':'), RTok.group 2 2],
     [FTok.fd, FTok.flit ('/'), FTok.fm, FTok.flit ('/'), FTok.fY,
      FTok.flit (' '), FTok.fH, FTok.flit (':'), FTok.fMin],
     [FTok.fd, FTok.flit ('/'), FTok.fm, FTok.flit ('/'), FTok.fY]),
    ([RTok.group 1 2, RTok.lit ('/'), RTok.group 1 2, RTok.lit ('/'), RTok.group 4 4],
     [FTok.fd, FTok.flit ('/'), FTok.fm, FTok.flit ('/'), FTok.fY],
     [FTok.fd, FTok.flit ('/'), FTok.fm, FTok.flit ('/'), FTok.fY]),
    ([RTok.group 4 4, RTok.lit ('-'), RTok.group 1 2, RTok.lit ('-'), RTok.group 1 2,
      RTok.spaces, RTok.group 1 2, RTok.lit (':'), RTok.group 2 2],
     [FTok.fY, FTok.flit ('-'), FTok.fm, FTok.flit ('-'), FTok.fd,
      FTok.flit (' '), FTok.fH, FTok.flit (':'), FTok.fMin],
     [FTok.fY, FTok.flit ('-'), FTok.fm, FTok.flit ('-'), FTok.fd]),
    ([RTok.group 4 4, RTok.lit ('-'), RTok.group 1 2, RTok.lit ('-'), RTok.group 1 2],
     [FTok.fY, FTok.flit ('-'), FTok.fm, FTok.flit ('-'), FTok.fd],
     [FTok.fY, FTok.flit ('-'), FTok.fm, FTok.flit ('-'), FTok.fd]) ]

/-- _parse_real_date: try each (pattern, format) pair in order; if the regex
matches, rebuild the date string by joining the captured groups with dots
(and space/colon for the time part) and run strptime with the pair's format;
on strptime failure fall through to the next pattern; none left means None. -/
def parse_real_date (s : String) : Option PDateTime :=
  datePatterns.findSome? (fun pf =>
    match regexSearch pf.1 s with
    | none => none
    | some gs =>
      match gs with
      | [g1, g2, g3, g4, g5] =>
        strptime (g1 ++ "." ++ g2 ++ "." ++ g3 ++ " " ++ g4 ++ ":" ++ g5) pf.2.1
      | [g1, g2, g3] =>
        strptime (g1 ++ "." ++ g2 ++ "." ++ g3) pf.2.2
      | _ => none)

/-! ### Price-text parsing (src/infrastructure/parsers/http_parser.py, _parse_real_price) -/

/-- A decimal number represented exactly as value over a power of ten:
(v, k) denotes v divided by 10 to the k. Comparisons on this representation
are the exact comparisons of the denoted numbers. -/
abbrev Scaled := Nat × Nat

/-- The rational number denoted by a scaled decimal. -/
def scaledToRat (a : Scaled) : ℚ :=
  (a.1 : ℚ) / (10 : ℚ) ^ a.2

/-- Exact strict comparison of two scaled decimals (by cross-multiplication). -/
def scaledLt (a b : Scaled) : Bool :=
  a.1 * 10 ^ b.2 < b.1 * 10 ^ a.2

/-- max of two scaled decimals, by exact numeric comparison. -/
def scaledMax (a b : Scaled) : Scaled :=
  if scaledLt a b then b else a

/-- Scaled decimal with integer part n and k fractional digits of value f. -/
def scaledOfParts (n f k : Nat) : Scaled :=
  (n * 10 ^ k + f, k)

/-- Lexer state for scanning the cleaned price text with the number pattern of
re.findall: digits optionally followed by a dot and at least one more digit. -/
inductive PState where
  | idle
  | ip (n : Nat)
  | dot (n : Nat)
  | fp (n f k : Nat)
deriving DecidableEq

/-- Tokens still pending in the lexer state at end of input. -/
def flushPState : PState → List Scaled
  | PState.idle => []
  | PState.ip n => [(n, 0)]
  | PState.dot n => [(n, 0)]
  | PState.fp n f k => [scaledOfParts n f k]

/-- One left-to-right scan of the cleaned characters, emitting each maximal
numeric token; a dot is consumed into a token only when a digit follows it,
exactly as the findall number pattern does. -/
def price_scan : List Char → PState → List Scaled
  | [], st => flushPState st
  | c :: cs, st =>
    if c.isDigit then
      match st with
      | PState.idle => price_scan cs (PState.ip (c.toNat - 48))
      | PState.ip n => price_scan cs (PState.ip (10 * n + (c.toNat - 48)))
      | PState.dot n => price_scan cs (PState.fp n (c.toNat - 48) 1)
      | PState.fp n f k => price_scan cs (PState.fp n (10 * f + (c.toNat - 48)) (k + 1))
    else if c = '.' then
      match st with
      | PState.idle => price_scan cs PState.idle
      | PState.ip n => price_scan cs (PState.dot n)
      | PState.dot n => (n, 0) :: price_scan cs PState.idle
      | PState.fp n f k => scaledOfParts n f k :: price_scan cs PState.idle
    else
      match st with
      | PState.idle => price_scan cs PState.idle
      | PState.ip n => (n, 0) :: price_scan cs PState.idle
      | PState.dot n => (n, 0) :: price_scan cs PState.idle
      | PState.fp n f k => scaledOfParts n f k :: price_scan cs PState.idle

/-- All numeric substrings of a cleaned character list, in order. -/
def price_number_tokens (cs : List Char) : List Scaled :=
  price_scan cs PState.idle

/-- The cleaning pipeline of _parse_real_price: keep only digits, whitespace,
commas and dots; replace commas by dots; delete space characters. -/
def price_clean_chars (s : String) : List Char :=
  ((s.toList.filter (fun c => c.isDigit || c.isWhitespace || c = ',' || c = '.')).map
    (fun c => if c = ',' then '.' else c)).filter (fun c => c ≠ ' ')

/-- All numeric substrings found in the cleaned price text. -/
def price_tokens (s : String) : List Scaled :=
  price_number_tokens (price_clean_chars s)

/-- The maximum numeric substring of the price text as a scaled decimal;
none when no number is found. -/
def max_price_token (s : String) : Option Scaled :=
  match price_tokens s with
  | [] => none
  | n :: ns => some ((n :: ns).foldl scaledMax n)

/-- The maximum numeric substring of the price text before the sanity
correction; 0 when no number is found. -/
def raw_max_price (s : String) : ℚ :=
  match max_price_token s with
  | none => 0
  | some m => scaledToRat m

/-- _parse_real_price: take the maximum numeric substring and divide by 100
when it implausibly exceeds one billion; 0 when no number is found. The
division by 100 adds two to the power-of-ten scale. -/
def parse_real_price (s : String) : ℚ :=
  match max_price_token s with
  | none => 0
  | some m =>
    if 1000000000 * 10 ^ m.2 < m.1 then scaledToRat (m.1, m.2 + 2) else scaledToRat m

/-! ### Economics value objects (src/domain/value_objects/economics.py) -/

/-- ProjectType enumeration. -/
inductive ProjectType where
  | architecture
  | engineering
  | landscaping
  | complex
  | restavration
  | infrastructure
deriving DecidableEq

/-- RiskLevel enumeration. -/
inductive RiskLevel where
  | low
  | medium
  | high
  | critical
deriving DecidableEq

/-- TeamRole: a role with its percentage share of the total amount.
Monetary and percentage values use exact rational arithmetic. -/
structure TeamRole where
  name : String
  percentage : ℚ
  hourlyRate : Option Nat := none
  hoursPerMonth : Option Nat := none
  description : String := ""
deriving DecidableEq

/-- TeamRole construction with its post-init check: the percentage must lie
in the closed interval from 0 to 1, otherwise a ValueError is raised. -/
def mkTeamRole (name : String) (percentage : ℚ) (hourlyRate hoursPerMonth : Option Nat) :
    Except String TeamRole :=
  if 0 ≤ percentage ∧ percentage ≤ 1 then
    Except.ok { name := name, percentage := percentage, hourlyRate := hourlyRate,
                hoursPerMonth := hoursPerMonth }
  else Except.error ("Percentage must be between 0 and 1")

/-- ProjectConfig: configuration of a project for the economics calculation.
The team, overhead and tax mappings are modelled as association lists. -/
structure ProjectConfig where
  projectName : String
  totalAmount : ℚ
  durationMonths : Nat
  projectType : ProjectType
  team : List (String × TeamRole)
  overheadCosts : List (String × ℚ) := []
  taxes : List (String × ℚ) := []
deriving DecidableEq

/-- ProjectConfig construction with its post-init check: the sum of the team
role percentages must not exceed 1, otherwise a ValueError is raised. -/
def mkProjectConfig (projectName : String) (totalAmount : ℚ) (durationMonths : Nat)
    (projectType : ProjectType) (team : List (String × TeamRole))
    (overheadCosts taxes : List (String × ℚ)) : Except String ProjectConfig :=
  if 1 < (team.map (fun e => e.2.percentage)).sum then
    Except.error ("Total team percentage exceeds 100%")
  else
    Except.ok { projectName := projectName, totalAmount := totalAmount,
                durationMonths := durationMonths, projectType := projectType,
                team := team, overheadCosts := overheadCosts, taxes := taxes }

/-- Build the TeamRole values one by one (each TeamRole constructor runs its
own range check), failing on the first out-of-range percentage. -/
def mkTeam : List (String × ℚ) → Except String (List (String × TeamRole))
  | [] => Except.ok []
  | e :: es =>
    match mkTeamRole e.1 e.2 none none, mkTeam es with
    | Except.ok r, Except.ok team => Except.ok ((e.1, r) :: team)
    | Except.error msg, _ => Except.error msg
    | Except.ok _, Except.error msg => Except.error msg

/-- Construct a ProjectConfig from raw role percentages: the TeamRole range
checks run first, then the ProjectConfig sum check, all before any
calculation is attempted. -/
def buildProjectConfig (projectName : String) (totalAmount : ℚ) (durationMonths : Nat)
    (projectType : ProjectType) (entries : List (String × ℚ))
    (overheadCosts taxes : List (String × ℚ)) : Except String ProjectConfig :=
  match mkTeam entries with
  | Except.error msg => Except.error msg
  | Except.ok team =>
    mkProjectConfig projectName totalAmount durationMonths projectType team overheadCosts taxes

/-- Market-comparison summary returned by _get_market_comparison. -/
structure MarketComparison where
  marketAvgProfitMargin : ℚ
  marketAvgRoi : ℚ
  profitMarginDiff : ℚ
  marketPosition : String
deriving DecidableEq

/-- EconomicsResult: the derived result of one calculation. -/
structure EconomicsResult where
  totalRevenue : ℚ
  totalCosts : ℚ
  grossProfit : ℚ
  netProfit : ℚ
  profitMargin : ℚ
  roi : ℚ
  paybackPeriodMonths : Option ℚ := none
  teamCosts : ℚ := 0
  overheadCosts : ℚ := 0
  taxCosts : ℚ := 0
  teamBreakdown : List (String × ℚ) := []
  riskLevel : RiskLevel := RiskLevel.medium
  riskScore : ℚ := 1/2
  riskFactors : List String := []
  marketComparison : MarketComparison
deriving DecidableEq

/-! ### Economics service (src/application/services/economics_service.py) -/

/-- _calculate_team_costs: each role costs the config's total_amount times the
role's percentage; returns the total and the per-role breakdown. -/
def calculate_team_costs (config : ProjectConfig) : ℚ × List (String × ℚ) :=
  let breakdown := config.team.map (fun e => (e.1, config.totalAmount * e.2.percentage))
  ((breakdown.map Prod.snd).sum, breakdown)

/-- _calculate_taxes: sum over the tax mapping of gross profit times rate. -/
def calculate_taxes (grossProfit : ℚ) (taxes : List (String × ℚ)) : ℚ :=
  (taxes.map (fun t => grossProfit * t.2)).sum

/-- _calculate_profit_margin: net profit over revenue in percent, 0 when the
revenue is not positive. -/
def calculate_profit_margin (netProfit totalRevenue : ℚ) : ℚ :=
  if totalRevenue ≤ 0 then 0 else netProfit / totalRevenue * 100

/-- _calculate_roi: profit over investment in percent, 0 when the investment
is not positive. -/
def calculate_roi (investment profit : ℚ) : ℚ :=
  if investment ≤ 0 then 0 else profit / investment * 100

/-- _calculate_payback_period: months to recover the total amount, absent
when the net or monthly profit is not positive. -/
def calculate_payback_period (config : ProjectConfig) (netProfit : ℚ) : Option ℚ :=
  if netProfit ≤ 0 then none
  else
    let monthly := netProfit / (config.durationMonths : ℚ)
    if monthly ≤ 0 then none else some (config.totalAmount / monthly)

/-- Base risk by project type (_assess_risk's project_risk_map). -/
def projectBaseRisk : ProjectType → ℚ
  | ProjectType.architecture => 0.3
  | ProjectType.engineering => 0.4
  | ProjectType.landscaping => 0.2
  | ProjectType.complex => 0.6
  | ProjectType.restavration => 0.7
  | ProjectType.infrastructure => 0.5

/-- Risk add-on and factor for the project duration. -/
def durationRiskAdd (d : Nat) : ℚ × List String :=
  if 12 < d then (0.2, [("Длительный проект (> 12 месяцев)")])
  else if 6 < d then (0.1, [("Проект средней длительности (6-12 месяцев)")])
  else (0, [])

/-- Risk add-on and factor for the profit margin. -/
def marginRiskAdd (m : ℚ) : ℚ × List String :=
  if m < 10 then (0.3, [("Низкая маржа прибыли (< 10%)")])
  else if m < 15 then (0.1, [("Средняя маржа прибыли (10-15%)")])
  else (0, [])

/-- Risk add-on and factor for the team size. -/
def teamSizeRiskAdd (n : Nat) : ℚ × List String :=
  if 8 < n then (0.1, [("Большая команда (> 8 человек)")])
  else if n < 3 then (0.2, [("Малая команда (< 3 человек)")])
  else (0, [])

/-- The threshold mapping from a risk score to a risk level used at the end
of _assess_risk. -/
def riskLevelOf (s : ℚ) : RiskLevel :=
  if 0.7 ≤ s then RiskLevel.critical
  else if 0.5 ≤ s then RiskLevel.high
  else if 0.3 ≤ s then RiskLevel.medium
  else RiskLevel.low

/-- Numeric rank of a risk level, for stating monotonicity. -/
def riskRank : RiskLevel → Nat
  | RiskLevel.low => 0
  | RiskLevel.medium => 1
  | RiskLevel.high => 2
  | RiskLevel.critical => 3

/-- _assess_risk: base risk by type plus the duration, margin and team-size
add-ons, clamped to at most 1, together with the threshold level and the
accumulated factor descriptions. -/
def assess_risk (config : ProjectConfig) (profitMargin : ℚ) :
    RiskLevel × ℚ × List String :=
  let base := projectBaseRisk config.projectType
  let dur := durationRiskAdd config.durationMonths
  let mar := marginRiskAdd profitMargin
  let tea := teamSizeRiskAdd config.team.length
  let score := min (base + dur.1 + mar.1 + tea.1) 1
  (riskLevelOf score, score, dur.2 ++ mar.2 ++ tea.2)

/-- Market average margin and ROI per project type (_get_market_comparison). -/
def marketAverages : ProjectType → ℚ × ℚ
  | ProjectType.architecture => (15, 25)
  | ProjectType.engineering => (12, 20)
  | ProjectType.landscaping => (18, 30)
  | ProjectType.complex => (10, 15)
  | ProjectType.restavration => (8, 12)
  | ProjectType.infrastructure => (13, 22)

/-- _get_market_position: the 5-tier qualitative label by relative
difference thresholds. -/
def get_market_position (ourMargin marketAvg : ℚ) : String :=
  let diffPercent := if 0 < marketAvg then (ourMargin - marketAvg) / marketAvg * 100 else 0
  if 20 ≤ diffPercent then "Значительно выше рынка"
  else if 10 ≤ diffPercent then "Выше рынка"
  else if -10 ≤ diffPercent then "На уровне рынка"
  else if -20 ≤ diffPercent then "Ниже рынка"
  else "Значительно ниже рынка"

/-- _get_market_comparison: the static per-type averages, the margin
difference and the qualitative position. -/
def get_market_comparison (projectType : ProjectType) (profitMargin : ℚ) :
    MarketComparison :=
  let avg := marketAverages projectType
  { marketAvgProfitMargin := avg.1, marketAvgRoi := avg.2,
    profitMarginDiff := profitMargin - avg.1,
    marketPosition := get_market_position profitMargin avg.1 }

/-- calculate_project_economics: the fixed-order calculation of
EconomicsService. -/
def calculate_project_economics (tenderAmount : ℚ) (config : ProjectConfig) :
    EconomicsResult :=
  let teamCostsPair := calculate_team_costs config
  let teamCosts := teamCostsPair.1
  let overheadCosts := (config.overheadCosts.map Prod.snd).sum
  let grossProfit := tenderAmount - teamCosts - overheadCosts
  let taxCosts := calculate_taxes grossProfit config.taxes
  let netProfit := grossProfit - taxCosts
  let totalCosts := teamCosts + overheadCosts + taxCosts
  let profitMargin := calculate_profit_margin netProfit tenderAmount
  let roi := calculate_roi totalCosts netProfit
  let payback := calculate_payback_period config netProfit
  let risk := assess_risk config profitMargin
  { totalRevenue := tenderAmount, totalCosts := totalCosts,
    grossProfit := grossProfit, netProfit := netProfit,
    profitMargin := profitMargin, roi := roi,
    paybackPeriodMonths := payback,
    teamCosts := teamCosts, overheadCosts := overheadCosts, taxCosts := taxCosts,
    teamBreakdown := teamCostsPair.2,
    riskLevel := risk.1, riskScore := risk.2.1, riskFactors := risk.2.2,
    marketComparison := get_market_comparison config.projectType profitMargin }

/-! ### Search-result page parsing (src/infrastructure/parsers/http_parser.py,
_parse_real_search_results and _parse_real_tender_card). A tender card is
modelled by the outcomes of its per-field extractors: the registration
number, title and customer extractors return an optional value; the price
extractor already defaults to 0 internally; the URL, type and status
extractors always return a value; the deadline extractor is optional. -/

/-- Outcomes of the field extractors on one tender card fragment. -/
structure Card where
  regNumber : Option String
  title : Option String
  customer : Option String
  price : ℚ
  url : String
  tenderType : String
  status : String
  deadline : Option PDateTime
deriving DecidableEq

/-- A raw tender record assembled from one card. -/
structure RawTender where
  regNumber : String
  title : String
  customer : String
  price : ℚ
  url : String
  tenderType : String
  status : String
  deadline : Option PDateTime
deriving DecidableEq

/-- _parse_real_tender_card: the registration number must be extracted or
the whole card is discarded (None); every other field falls back to a safe
default and never discards the record. -/
def parse_real_tender_card (c : Card) : Option RawTender :=
  match c.regNumber with
  | none => none
  | some rn =>
    some { regNumber := rn,
           title := c.title.getD ("Тендер № " ++ rn),
           customer := c.customer.getD ("Заказчик не указан"),
           price := c.price,
           url := c.url,
           tenderType := c.tenderType,
           status := c.status,
           deadline := c.deadline }

/-- _parse_real_search_results: when no results container is found the page
is unparseable and the empty list is returned (after dumping the raw HTML);
otherwise each card fragment is parsed and the failed ones are skipped. -/
def parse_real_search_results (container : Option (List Card)) : List RawTender :=
  match container with
  | none => []
  | some cards => cards.filterMap parse_real_tender_card

/-! ### HTTP search with transport-level retry (src/infrastructure/parsers/
http_parser.py, search_tenders with its tenacity retry decorator). -/

/-- Error kinds raised by search_tenders, plus the transient network error
kind and the RetryError that tenacity raises after its attempt budget. -/
inductive SearchError where
  | captcha
  | blocked
  | rateLimited
  | siteError (status : Nat)
  | transient
  | retryError (last : SearchError)
deriving DecidableEq

/-- Outcome of one HTTP fetch: a transient network failure (timeout or
connection error) or a response with a status code and a page whose parse
outcome and captcha-marker presence are given. -/
structure PageData where
  container : Option (List Card)
  hasCaptchaMarker : Bool
deriving DecidableEq

inductive FetchOutcome where
  | netError
  | response (status : Nat) (page : PageData)
deriving DecidableEq

/-- The per-result enhancement of the enrichment loop: the enhanced record
when details could be fetched, the original record otherwise. -/
def enhanceStep (enhance : RawTender → Option RawTender) (r : RawTender) : RawTender :=
  (enhance r).getD r

/-- One attempt of search_tenders (the body inside the retry decorator):
HTTP 200 parses the page; a non-empty parse is enriched over only the first
limit results; an empty parse raises the captcha error when the body carries
captcha markers and returns the empty list otherwise; 403 raises blocked,
429 raises rate-limited, any other status raises the site error carrying it;
a transient network failure raises the transient error. -/
def searchAttempt (limit : Nat) (enhance : RawTender → Option RawTender)
    (f : FetchOutcome) : Except SearchError (List RawTender) :=
  match f with
  | FetchOutcome.netError => Except.error SearchError.transient
  | FetchOutcome.response status page =>
    if status = 200 then
      let results := parse_real_search_results page.container
      if results.isEmpty then
        if page.hasCaptchaMarker then Except.error SearchError.captcha
        else Except.ok []
      else Except.ok ((results.take limit).map (enhanceStep enhance))
    else if status = 403 then Except.error SearchError.blocked
    else if status = 429 then Except.error SearchError.rateLimited
    else Except.error (SearchError.siteError status)

/-- The tenacity retry loop with stop_after_attempt semantics: the default
retry predicate retries on any raised exception; fuel counts the remaining
attempts; after the last failed attempt a RetryError wrapping the last
exception is raised. Returns the outcome and the number of attempts made. -/
def retryGo (body : Nat → Except SearchError α) (attempt : Nat) :
    Nat → Except SearchError α × Nat
  | 0 => (Except.error (SearchError.retryError SearchError.transient), attempt)
  | 1 =>
    match body attempt with
    | Except.ok a => (Except.ok a, attempt + 1)
    | Except.error e => (Except.error (SearchError.retryError e), attempt + 1)
  | n + 2 =>
    match body attempt with
    | Except.ok a => (Except.ok a, attempt + 1)
    | Except.error _ => retryGo body (attempt + 1) (n + 1)

/-- tenacity's retry decorator with stop_after_attempt maxAttempts. -/
def retryTenacity (maxAttempts : Nat) (body : Nat → Except SearchError α) :
    Except SearchError α × Nat :=
  retryGo body 0 maxAttempts

/-- search_tenders as decorated in the source: the attempt body wrapped in
the tenacity retry with stop_after_attempt 5. -/
def search_tenders (limit : Nat) (enhance : RawTender → Option RawTender)
    (fetches : Nat → FetchOutcome) : Except SearchError (List RawTender) × Nat :=
  retryTenacity 5 (fun i => searchAttempt limit enhance (fetches i))

/-! ### Orchestrator retry (src/application/services/search_service.py,
search_with_auto_retry). -/

/-- Outcome of search_with_auto_retry: a result list, or the summarizing
failure raised after the final attempt, wrapping the last error. -/
inductive RetryOutcome (ρ : Type) where
  | results (rs : List ρ)
  | failedAfter (attempts : Nat) (lastError : String)
deriving DecidableEq

/-- The attempt loop of search_with_auto_retry. Each attempt calls search;
a non-empty result returns immediately; an empty result sleeps
(attempt+1)*2 seconds unless it was the last attempt; an error raises the
summarizing failure on the last attempt and otherwise sleeps (attempt+1)*3
seconds; a loop that ends without returning yields the empty list. The log
of sleep delays is returned alongside the outcome. -/
def autoRetryGo (out : Nat → Except String (List ρ)) (maxAttempts attempt : Nat) :
    RetryOutcome ρ × List Nat :=
  if h : attempt < maxAttempts then
    match out attempt with
    | Except.ok rs =>
      if rs.isEmpty then
        if attempt < maxAttempts - 1 then
          let next := autoRetryGo out maxAttempts (attempt + 1)
          (next.1, (attempt + 1) * 2 :: next.2)
        else autoRetryGo out maxAttempts (attempt + 1)
      else (RetryOutcome.results rs, [])
    | Except.error e =>
      if attempt = maxAttempts - 1 then (RetryOutcome.failedAfter maxAttempts e, [])
      else
        let next := autoRetryGo out maxAttempts (attempt + 1)
        (next.1, (attempt + 1) * 3 :: next.2)
  else (RetryOutcome.results [], [])
termination_by maxAttempts - attempt
decreasing_by all_goals omega

/-- search_with_auto_retry: run the attempt loop from attempt 0. -/
def search_with_auto_retry (out : Nat → Except String (List ρ)) (maxAttempts : Nat) :
    RetryOutcome ρ × List Nat :=
  autoRetryGo out maxAttempts 0

/-! ### Concrete cards for the end-to-end parsing scenario -/

/-- A well-formed tender card. -/
def goodCard1 : Card :=
  { regNumber := some ("0123456789012345601"), title := some ("Поставка офисной мебели"),
    customer := some ("Школа № 1"), price := 1500000, url := ("https://zakupki.gov.ru/a"),
    tenderType := ("44-fz"), status := ("active"), deadline := none }

/-- A second well-formed tender card. -/
def goodCard2 : Card :=
  { regNumber := some ("0123456789012345602"), title := some ("Офисные кресла"),
    customer := some ("Администрация"), price := 700000, url := ("https://zakupki.gov.ru/b"),
    tenderType := ("223-fz"), status := ("active"), deadline := none }

/-- A third well-formed tender card. -/
def goodCard3 : Card :=
  { regNumber := some ("0123456789012345603"), title := some ("Столы для офиса"),
    customer := some ("Больница"), price := 300000, url := ("https://zakupki.gov.ru/c"),
    tenderType := ("44-fz"), status := ("active"), deadline := none }

/-- A card whose registration-number extraction failed. -/
def badCard : Card :=
  { regNumber := none, title := some ("Карточка без номера"),
    customer := some ("Неизвестный заказчик"), price := 100000,
    url := ("https://zakupki.gov.ru/d"), tenderType := ("unknown"),
    status := ("active"), deadline := none }

/-! ### Claims -/

/-- Claim C2: for every tender amount and every ProjectConfig, the
calculation satisfies exactly total costs = team + overhead + tax costs and
net profit = gross profit - tax costs, with gross profit = amount - team
costs - overhead costs and tax costs the sum over the tax mapping of gross
profit times rate, in exact decimal arithmetic. -/
theorem claim2_calculate_identities : ∀ (amount : ℚ) (config : ProjectConfig),
    (calculate_project_economics amount config).totalCosts
      = (calculate_project_economics amount config).teamCosts
        + (calculate_project_economics amount config).overheadCosts
        + (calculate_project_economics amount config).taxCosts
    ∧ (calculate_project_economics amount config).netProfit
      = (calculate_project_economics amount config).grossProfit
        - (calculate_project_economics amount config).taxCosts
    ∧ (calculate_project_economics amount config).grossProfit
      = amount - (calculate_project_economics amount config).teamCosts
        - (calculate_project_economics amount config).overheadCosts
    ∧ (calculate_project_economics amount config).taxCosts
      = (config.taxes.map
          (fun t => (calculate_project_economics amount config).grossProfit * t.2)).sum :=
  fun _ _ => ⟨rfl, rfl, rfl, rfl⟩

/-- The concrete ProjectConfig of end-to-end scenario B. -/
def scenarioConfigB : ProjectConfig :=
  { projectName := ("Scenario B"), totalAmount := 5000000, durationMonths := 6,
    projectType := ProjectType.architecture,
    team := [(("PM"), { name := ("PM"), percentage := 1/2 })],
    overheadCosts := [(("rent"), 100000)],
    taxes := [(("income"), 1/5)] }

/-- Claim C8: each team role costs the configuration's total_amount times the
role's percentage — the config's total_amount, not the tender amount
argument, is the base — and scenario B yields exactly the stated figures. -/
theorem claim8_team_cost_base :
    (∀ (a b : ℚ) (config : ProjectConfig),
      (calculate_project_economics a config).teamCosts
        = (calculate_project_economics b config).teamCosts)
    ∧ (∀ (a : ℚ) (config : ProjectConfig),
      (calculate_project_economics a config).teamBreakdown
        = config.team.map (fun e => (e.1, config.totalAmount * e.2.percentage)))
    ∧ (calculate_project_economics 5000000 scenarioConfigB).teamCosts = 2500000
    ∧ (calculate_project_economics 5000000 scenarioConfigB).overheadCosts = 100000
    ∧ (calculate_project_economics 5000000 scenarioConfigB).grossProfit = 2400000
    ∧ (calculate_project_economics 5000000 scenarioConfigB).taxCosts = 480000
    ∧ (calculate_project_economics 5000000 scenarioConfigB).netProfit = 1920000
    ∧ (calculate_project_economics 5000000 scenarioConfigB).profitMargin = 38.4 := by
  refine ⟨fun a b config => rfl, fun a config => rfl, ?_, ?_, ?_, ?_, ?_, ?_⟩
  all_goals
    norm_num [calculate_project_economics, calculate_team_costs, calculate_taxes,
      calculate_profit_margin, scenarioConfigB]

/-- Claim C3: page parsing never throws — an unmatched container yields the
empty list; a fragment without a registration number is discarded entirely;
any other field failure only substitutes a safe default and never discards
the record; and a page of 3 well-formed cards plus 1 card missing the
registration number yields exactly 3 records. -/
theorem claim3_parse_degradation :
    parse_real_search_results none = []
    ∧ (∀ c : Card, c.regNumber = none → parse_real_tender_card c = none)
    ∧ (∀ c : Card, c.regNumber.isSome = true → (parse_real_tender_card c).isSome = true)
    ∧ (∀ rn url tt st, parse_real_tender_card
        { regNumber := some rn, title := none, customer := none, price := 0,
          url := url, tenderType := tt, status := st, deadline := none }
        = some { regNumber := rn, title := ("Тендер № " ++ rn),
                 customer := ("Заказчик не указан"), price := 0, url := url,
                 tenderType := tt, status := st, deadline := none })
    ∧ (parse_real_search_results (some [goodCard1, goodCard2, badCard, goodCard3])).length = 3 := by
  refine ⟨rfl, ?_, ?_, fun rn url tt st => rfl, rfl⟩
  · intro c h
    simp [parse_real_tender_card, h]
  · intro c h
    match hr : c.regNumber with
    | none => rw [hr] at h; simp at h
    | some rn => simp [parse_real_tender_card, hr]

/-- Witness for claim C3 at concrete cards. -/
theorem claim3_witness :
    parse_real_tender_card badCard = none
    ∧ (parse_real_tender_card goodCard1).isSome = true :=
  ⟨claim3_parse_degradation.2.1 badCard rfl,
   claim3_parse_degradation.2.2.1 goodCard1 rfl⟩

/-- Claim C6: price parsing maps the given sample to exactly 1234567.89, and
whenever the maximum numeric substring exceeds one billion the returned
value is that maximum divided by 100. -/
theorem claim6_price_parsing :
    parse_real_price ("1 234 567,89 ₽") = 1234567.89
    ∧ ∀ s : String, 1000000000 < raw_max_price s →
        parse_real_price s = raw_max_price s / 100 := by
  constructor
  · have hm : max_price_token ("1 234 567,89 ₽") = some (123456789, 2) := by decide
    rw [parse_real_price, hm]
    norm_num [scaledToRat]
  · intro s h
    match hm : max_price_token s with
    | none =>
      simp only [raw_max_price, hm] at h
      norm_num at h
    | some m =>
      simp only [raw_max_price, hm] at h
      simp only [raw_max_price, parse_real_price, hm]
      simp only [scaledToRat] at h
      have hpow : (0 : ℚ) < (10 : ℚ) ^ m.2 := by positivity
      rw [lt_div_iff₀ hpow] at h
      have hnat : 1000000000 * 10 ^ m.2 < m.1 := by
        have h2 := h
        push_cast at h2
        exact_mod_cast h2
      rw [if_pos hnat]
      simp only [scaledToRat]
      rw [pow_add, div_div]
      norm_num

/-- Witness for claim C6 at a concrete over-a-billion price text. -/
theorem claim6_witness :
    1000000000 < raw_max_price ("2000000000")
    ∧ parse_real_price ("2000000000") = 20000000 := by
  have hm : max_price_token ("2000000000") = some (2000000000, 0) := by decide
  have h1 : raw_max_price ("2000000000") = 2000000000 := by
    rw [raw_max_price, hm]
    norm_num [scaledToRat]
  have hgt : 1000000000 < raw_max_price ("2000000000") := by rw [h1]; norm_num
  refine ⟨hgt, ?_⟩
  rw [claim6_price_parsing.2 ("2000000000") hgt, h1]
  norm_num

/-- Claim C7 (evaluation of the code at the spec's two sample inputs): the
day-first sample parses to 1 March 2025, but the ISO sample "2025-03-01"
fails to parse at all — the ISO regex matches, yet the code rebuilds the
matched groups joined with dots and hands them to strptime with the
dash-separated ISO format, which therefore always fails, and no other
pattern applies. -/
theorem claim7_date_parsing :
    parse_real_date ("01.03.2025 23:59")
      = some { year := 2025, month := 3, day := 1, hour := 23, minute := 59 }
    ∧ parse_real_date ("2025-03-01") = none := by
  constructor
  · decide
  · decide

/-! ### Helper lemmas for configuration construction -/

/-- A successfully constructed TeamRole carries its given percentage. -/
lemma mkTeamRole_percentage {n : String} {p : ℚ} {hr hm : Option Nat} {r : TeamRole}
    (h : mkTeamRole n p hr hm = Except.ok r) : r.percentage = p := by
  unfold mkTeamRole at h
  split_ifs at h with hc
  · simp only [Except.ok.injEq] at h
    subst h
    rfl

/-- A successfully built team has exactly the given percentages. -/
lemma mkTeam_ok_percentages : ∀ {entries : List (String × ℚ)}
    {team : List (String × TeamRole)}, mkTeam entries = Except.ok team →
    team.map (fun e => e.2.percentage) = entries.map Prod.snd := by
  intro entries
  induction entries with
  | nil =>
    intro team h
    simp only [mkTeam, Except.ok.injEq] at h
    subst h
    rfl
  | cons e es ih =>
    intro team h
    cases hr : mkTeamRole e.1 e.2 none none with
    | error msg => simp [mkTeam, hr] at h
    | ok r =>
      cases ht : mkTeam es with
      | error msg => simp [mkTeam, hr, ht] at h
      | ok team2 =>
        simp only [mkTeam, hr, ht, Except.ok.injEq] at h
        subst h
        simp [mkTeamRole_percentage hr, ih ht]

/-- An out-of-range percentage anywhere in the entries makes team
construction fail. -/
lemma mkTeam_error_of_out_of_range : ∀ {entries : List (String × ℚ)}
    (e : String × ℚ), e ∈ entries → (e.2 < 0 ∨ 1 < e.2) →
    ∀ t, mkTeam entries ≠ Except.ok t := by
  intro entries
  induction entries with
  | nil =>
    intro e he
    simp at he
  | cons a es ih =>
    intro e he hbad t h
    rcases List.mem_cons.mp he with heq | hmem
    · subst heq
      have hc : ¬ (0 ≤ e.2 ∧ e.2 ≤ 1) := by
        rintro ⟨h1, h2⟩
        rcases hbad with h3 | h3 <;> linarith
      simp [mkTeam, mkTeamRole, if_neg hc] at h
    · cases hr : mkTeamRole a.1 a.2 none none with
      | error msg => simp [mkTeam, hr] at h
      | ok r =>
        cases ht : mkTeam es with
        | error msg => simp [mkTeam, hr, ht] at h
        | ok t2 => exact ih e hmem hbad t2 ht

/-- All-in-range percentages make team construction succeed. -/
lemma mkTeam_ok_of_in_range : ∀ {entries : List (String × ℚ)},
    (∀ e ∈ entries, 0 ≤ e.2 ∧ e.2 ≤ 1) →
    ∃ t, mkTeam entries = Except.ok t := by
  intro entries
  induction entries with
  | nil => exact fun _ => ⟨[], rfl⟩
  | cons a es ih =>
    intro h
    have ha := h a (List.mem_cons_self a es)
    obtain ⟨t, ht⟩ := ih (fun e he => h e (List.mem_cons_of_mem a he))
    refine ⟨(a.1, { name := a.1, percentage := a.2 }) :: t, ?_⟩
    simp [mkTeam, mkTeamRole, if_pos ha, ht]

/-- Claim C4: ProjectConfig construction succeeds for every team whose role
percentages, each in the unit interval, sum to at most 1, and always fails
at construction time when the sum exceeds 1 or any single percentage lies
outside the unit interval. -/
theorem claim4_config_validation :
    ∀ (pn : String) (ta : ℚ) (dm : Nat) (pt : ProjectType)
      (entries oh tx : List (String × ℚ)),
    ((∀ e ∈ entries, 0 ≤ e.2 ∧ e.2 ≤ 1) → (entries.map Prod.snd).sum ≤ 1 →
      ∃ cfg, buildProjectConfig pn ta dm pt entries oh tx = Except.ok cfg)
    ∧ (1 < (entries.map Prod.snd).sum →
      ∀ cfg, buildProjectConfig pn ta dm pt entries oh tx ≠ Except.ok cfg)
    ∧ (∀ e ∈ entries, (e.2 < 0 ∨ 1 < e.2) →
      ∀ cfg, buildProjectConfig pn ta dm pt entries oh tx ≠ Except.ok cfg) := by
  intro pn ta dm pt entries oh tx
  refine ⟨?_, ?_, ?_⟩
  · intro hall hsum
    obtain ⟨t, ht⟩ := mkTeam_ok_of_in_range hall
    have hp := mkTeam_ok_percentages ht
    have hsum2 : (t.map (fun e => e.2.percentage)).sum ≤ 1 := by rw [hp]; exact hsum
    refine ⟨{ projectName := pn, totalAmount := ta, durationMonths := dm,
              projectType := pt, team := t, overheadCosts := oh, taxes := tx }, ?_⟩
    simp only [buildProjectConfig, ht, mkProjectConfig, if_neg (not_lt.mpr hsum2)]
  · intro hsum cfg h
    cases hT : mkTeam entries with
    | error msg => simp [buildProjectConfig, hT] at h
    | ok t =>
      simp only [buildProjectConfig, hT, mkProjectConfig] at h
      split_ifs at h with hc
      have hp := mkTeam_ok_percentages hT
      rw [hp] at hc
      exact hc hsum
  · intro e he hbad cfg h
    cases hT : mkTeam entries with
    | error msg => simp [buildProjectConfig, hT] at h
    | ok t => exact mkTeam_error_of_out_of_range e he hbad t hT

/-- Witness for claim C4: a valid half-share team constructs, an
over-100-percent team does not. -/
theorem claim4_witness :
    (∃ cfg, buildProjectConfig ("p") 5000000 6 ProjectType.architecture
      [(("PM"), (1/2 : ℚ))] [] [] = Except.ok cfg)
    ∧ (∀ cfg, buildProjectConfig ("q") 5000000 6 ProjectType.architecture
      [(("A"), (3/5 : ℚ)), (("B"), (3/5 : ℚ))] [] [] ≠ Except.ok cfg) := by
  constructor
  · refine (claim4_config_validation ("p") 5000000 6 ProjectType.architecture
      [(("PM"), (1/2 : ℚ))] [] []).1 ?_ ?_
    · intro e he
      simp only [List.mem_singleton] at he
      subst he
      norm_num
    · norm_num
  · refine (claim4_config_validation ("q") 5000000 6 ProjectType.architecture
      [(("A"), (3/5 : ℚ)), (("B"), (3/5 : ℚ))] [] []).2.1 ?_
    norm_num

/-! ### Helper lemmas for risk assessment -/

lemma projectBaseRisk_nonneg (t : ProjectType) : 0 ≤ projectBaseRisk t := by
  cases t <;> norm_num [projectBaseRisk]

lemma durationRiskAdd_nonneg (d : Nat) : 0 ≤ (durationRiskAdd d).1 := by
  unfold durationRiskAdd
  split_ifs <;> norm_num

lemma marginRiskAdd_nonneg (m : ℚ) : 0 ≤ (marginRiskAdd m).1 := by
  unfold marginRiskAdd
  split_ifs <;> norm_num

lemma teamSizeRiskAdd_nonneg (n : Nat) : 0 ≤ (teamSizeRiskAdd n).1 := by
  unfold teamSizeRiskAdd
  split_ifs <;> norm_num

/-- Claim C5: the risk score is clamped to the unit interval and the risk
level is exactly the monotone threshold mapping of the score. -/
theorem claim5_risk_score_and_level :
    ∀ (config : ProjectConfig) (margin : ℚ),
    (0 ≤ (assess_risk config margin).2.1
      ∧ (assess_risk config margin).2.1 ≤ 1
      ∧ (assess_risk config margin).1 = riskLevelOf (assess_risk config margin).2.1)
    ∧ (∀ s t : ℚ, s ≤ t → riskRank (riskLevelOf s) ≤ riskRank (riskLevelOf t)) := by
  intro config margin
  constructor
  · refine ⟨?_, ?_, rfl⟩
    · have h1 := projectBaseRisk_nonneg config.projectType
      have h2 := durationRiskAdd_nonneg config.durationMonths
      have h3 := marginRiskAdd_nonneg margin
      have h4 := teamSizeRiskAdd_nonneg config.team.length
      simp only [assess_risk]
      apply le_min
      · linarith
      · norm_num
    · simp only [assess_risk]
      exact min_le_right _ _
  · intro s t hst
    unfold riskLevelOf
    split_ifs <;> simp [riskRank] <;> linarith

/-- Witness for claim C5: the threshold mapping at two ordered concrete
scores and the score bound at a concrete configuration. -/
theorem claim5_witness :
    riskRank (riskLevelOf 0.2) ≤ riskRank (riskLevelOf 0.9)
    ∧ 0 ≤ (assess_risk scenarioConfigB 20).2.1 :=
  ⟨(claim5_risk_score_and_level scenarioConfigB 20).2 0.2 0.9 (by norm_num),
   (claim5_risk_score_and_level scenarioConfigB 20).1.1⟩

/-! ### Helper lemmas for the transport-level retry -/

/-- When every attempt errors, the tenacity loop makes exactly its remaining
budget of attempts and raises a RetryError wrapping the last error. -/
lemma retryGo_all_error {α : Type} (body : Nat → Except SearchError α)
    (es : Nat → SearchError) (h : ∀ i, body i = Except.error (es i)) :
    ∀ (n a : Nat), 1 ≤ n →
      retryGo body a n
        = (Except.error (SearchError.retryError (es (a + n - 1))), a + n) := by
  intro n
  induction n with
  | zero => intro a h1; omega
  | succ n ih =>
    intro a h1
    cases n with
    | zero => simp [retryGo, h a]
    | succ m =>
      show retryGo body a (m + 2) = _
      simp only [retryGo, h a]
      have h2 := ih (a + 1) (by omega)
      rw [h2]
      have hx : a + 1 + (m + 1) - 1 = a + (m + 1 + 1) - 1 := by omega
      have hy : a + 1 + (m + 1) = a + (m + 1 + 1) := by omega
      rw [hx, hy]

/-- A successful retried call comes from some successful attempt. -/
lemma retryGo_ok {α : Type} (body : Nat → Except SearchError α) :
    ∀ (n a k : Nat) (out : α), retryGo body a n = (Except.ok out, k) →
      ∃ i, body i = Except.ok out := by
  intro n
  induction n with
  | zero =>
    intro a k out h
    simp [retryGo] at h
  | succ n ih =>
    intro a k out h
    cases n with
    | zero =>
      cases hb : body a with
      | ok v =>
        simp only [retryGo, hb, Prod.mk.injEq, Except.ok.injEq] at h
        exact ⟨a, by rw [hb, h.1]⟩
      | error e => simp [retryGo, hb] at h
    | succ m =>
      cases hb : body a with
      | ok v =>
        have h2 : retryGo body a (m + 2) = (Except.ok out, k) := h
        simp only [retryGo, hb, Prod.mk.injEq, Except.ok.injEq] at h2
        exact ⟨a, by rw [hb, h2.1]⟩
      | error e =>
        have h2 : retryGo body a (m + 2) = (Except.ok out, k) := h
        simp only [retryGo, hb] at h2
        exact ih (a + 1) k out h2

/-- A successful single attempt returns at most limit records. -/
lemma searchAttempt_ok_length {lim : Nat} {enh : RawTender → Option RawTender}
    {f : FetchOutcome} {out : List RawTender}
    (h : searchAttempt lim enh f = Except.ok out) : out.length ≤ lim := by
  cases f with
  | netError => simp [searchAttempt] at h
  | response st page =>
    simp only [searchAttempt] at h
    split_ifs at h with h200 hempty hcaptcha h403 h429
    · simp only [Except.ok.injEq] at h
      subst h
      simp
    · simp only [Except.ok.injEq] at h
      subst h
      rw [List.length_map, List.length_take]
      exact min_le_left _ _

/-- Claim C1 (amended): search_tenders classifies the HTTP outcome — 403 as
blocked, 429 as rate-limited, any other non-200 as a site error carrying the
status, and HTTP 200 whose parse yields no results with captcha markers
present as the captcha error — but these classified failures ARE retried at
the transport level: the tenacity decorator retries on any raised exception,
so when every attempt raises a classified error the call makes all 5
attempts and surfaces the last error wrapped in a RetryError. -/
theorem claim1_classification_and_transport_retry :
    (∀ (lim : Nat) (enh : RawTender → Option RawTender) (page : PageData),
      searchAttempt lim enh (FetchOutcome.response 403 page)
        = Except.error SearchError.blocked)
    ∧ (∀ (lim : Nat) (enh : RawTender → Option RawTender) (page : PageData),
      searchAttempt lim enh (FetchOutcome.response 429 page)
        = Except.error SearchError.rateLimited)
    ∧ (∀ (lim : Nat) (enh : RawTender → Option RawTender) (page : PageData)
        (st : Nat), st ≠ 200 → st ≠ 403 → st ≠ 429 →
      searchAttempt lim enh (FetchOutcome.response st page)
        = Except.error (SearchError.siteError st))
    ∧ (∀ (lim : Nat) (enh : RawTender → Option RawTender)
        (cont : Option (List Card)), parse_real_search_results cont = [] →
      searchAttempt lim enh (FetchOutcome.response 200
          { container := cont, hasCaptchaMarker := true })
        = Except.error SearchError.captcha)
    ∧ (∀ (lim : Nat) (enh : RawTender → Option RawTender)
        (fetches : Nat → FetchOutcome) (es : Nat → SearchError),
      (∀ i, searchAttempt lim enh (fetches i) = Except.error (es i)) →
      search_tenders lim enh fetches
        = (Except.error (SearchError.retryError (es 4)), 5)) := by
  refine ⟨fun lim enh page => rfl, fun lim enh page => rfl, ?_, ?_, ?_⟩
  · intro lim enh page st h200 h403 h429
    simp [searchAttempt, h200, h403, h429]
  · intro lim enh cont hempty
    simp [searchAttempt, hempty]
  · intro lim enh fetches es h
    have h2 := retryGo_all_error (fun i => searchAttempt lim enh (fetches i)) es h 5 0
      (by norm_num)
    simpa [search_tenders, retryTenacity] using h2

/-- Witness for claim C1 at concrete outcomes: a 403 classifies as blocked,
and five transient failures exhaust the budget into a wrapped error. -/
theorem claim1_witness :
    searchAttempt 10 (fun _ => none)
      (FetchOutcome.response 403 { container := none, hasCaptchaMarker := false })
      = Except.error SearchError.blocked
    ∧ search_tenders 10 (fun _ => none) (fun _ => FetchOutcome.netError)
      = (Except.error (SearchError.retryError SearchError.transient), 5) :=
  ⟨claim1_classification_and_transport_retry.1 10 (fun _ => none)
      { container := none, hasCaptchaMarker := false },
   claim1_classification_and_transport_retry.2.2.2.2 10 (fun _ => none)
      (fun _ => FetchOutcome.netError) (fun _ => SearchError.transient)
      (fun _ => rfl)⟩

/-- Counterexample for claim C1 as stated: with every response an HTTP 429,
the classified rate-limited failure is NOT surfaced without transport-level
re-attempts — the tenacity layer retries it and makes all 5 attempts, then
surfaces it wrapped in a RetryError rather than directly. -/
theorem claim1_counterexample :
    search_tenders 10 (fun _ => none)
      (fun _ => FetchOutcome.response 429 { container := none, hasCaptchaMarker := false })
      = (Except.error (SearchError.retryError SearchError.rateLimited), 5)
    ∧ 5 ≠ 1 :=
  ⟨rfl, by norm_num⟩

/-- Claim C10: a successful search_tenders call returns at most limit
records, even when the parsed page yields more cards. -/
theorem claim10_limit :
    ∀ (lim : Nat) (enh : RawTender → Option RawTender)
      (fetches : Nat → FetchOutcome) (out : List RawTender),
    (search_tenders lim enh fetches).1 = Except.ok out → out.length ≤ lim := by
  intro lim enh fetches out h
  have h2 : retryGo (fun i => searchAttempt lim enh (fetches i)) 0 5
      = (Except.ok out, (search_tenders lim enh fetches).2) := by
    have : search_tenders lim enh fetches
        = (retryGo (fun i => searchAttempt lim enh (fetches i)) 0 5) := rfl
    rw [this] at h ⊢
    exact Prod.ext h rfl
  obtain ⟨i, hi⟩ := retryGo_ok _ 5 0 _ out h2
  exact searchAttempt_ok_length hi

/-- Witness for claim C10: a page with three parsed cards under limit 2
returns exactly the first two records. -/
theorem claim10_witness :
    (search_tenders 2 (fun _ => none) (fun _ => FetchOutcome.response 200
      { container := some [goodCard1, goodCard2, goodCard3], hasCaptchaMarker := false })).1
      = Except.ok
        [ { regNumber := ("0123456789012345601"), title := ("Поставка офисной мебели"),
            customer := ("Школа № 1"), price := 1500000,
            url := ("https://zakupki.gov.ru/a"), tenderType := ("44-fz"),
            status := ("active"), deadline := none },
          { regNumber := ("0123456789012345602"), title := ("Офисные кресла"),
            customer := ("Администрация"), price := 700000,
            url := ("https://zakupki.gov.ru/b"), tenderType := ("223-fz"),
            status := ("active"), deadline := none } ]
    ∧ ([ ({ regNumber := ("0123456789012345601"), title := ("Поставка офисной мебели"),
            customer := ("Школа № 1"), price := 1500000,
            url := ("https://zakupki.gov.ru/a"), tenderType := ("44-fz"),
            status := ("active"), deadline := none } : RawTender),
          { regNumber := ("0123456789012345602"), title := ("Офисные кресла"),
            customer := ("Администрация"), price := 700000,
            url := ("https://zakupki.gov.ru/b"), tenderType := ("223-fz"),
            status := ("active"), deadline := none } ] : List RawTender).length ≤ 2 := by
  refine ⟨rfl, ?_⟩
  exact claim10_limit 2 (fun _ => none) (fun _ => FetchOutcome.response 200
    { container := some [goodCard1, goodCard2, goodCard3], hasCaptchaMarker := false }) _ rfl

/-! ### Helper lemmas for the orchestrator retry -/

/-- When every remaining attempt errors, the loop raises the summarizing
failure wrapping the last error after the final attempt, having slept
(i+1)*3 seconds after each non-final attempt. -/
lemma autoRetryGo_all_error {ρ : Type} (out : Nat → Except String (List ρ))
    (es : Nat → String) (M : Nat) :
    ∀ (d a : Nat), M = a + d → 0 < d →
    (∀ i, a ≤ i → i < M → out i = Except.error (es i)) →
    autoRetryGo out M a
      = (RetryOutcome.failedAfter M (es (M - 1)),
         (List.range' a (d - 1)).map (fun i => (i + 1) * 3)) := by
  intro d
  induction d with
  | zero => intro a h0 hd; omega
  | succ d ih =>
    intro a hM hd h
    have ha : a < M := by omega
    rw [autoRetryGo]
    simp only [dif_pos ha, h a le_rfl ha]
    rcases Nat.eq_zero_or_pos d with rfl | hd2
    · have hlast : a = M - 1 := by omega
      rw [if_pos hlast]
      simp [hlast]
    · obtain ⟨d2, rfl⟩ : ∃ k, d = k + 1 := ⟨d - 1, by omega⟩
      have hne : a ≠ M - 1 := by omega
      rw [if_neg hne]
      have ihh := ih (a + 1) (by omega) (by omega) (fun i h1 h2 => h i (by omega) h2)
      rw [ihh]
      have hr : List.range' a (d2 + 1) = a :: List.range' (a + 1) d2 := List.range'_succ a d2 1
      simp [hr]

/-- When every remaining attempt returns the empty list, the loop falls
through and returns the empty list, having slept (i+1)*2 seconds after each
non-final attempt. -/
lemma autoRetryGo_all_empty {ρ : Type} (out : Nat → Except String (List ρ)) (M : Nat) :
    ∀ (d a : Nat), M = a + d →
    (∀ i, a ≤ i → i < M → out i = Except.ok []) →
    autoRetryGo out M a
      = (RetryOutcome.results [],
         (List.range' a (d - 1)).map (fun i => (i + 1) * 2)) := by
  intro d
  induction d with
  | zero =>
    intro a hM h
    rw [autoRetryGo]
    simp [dif_neg (by omega : ¬ a < M)]
  | succ d ih =>
    intro a hM h
    have ha : a < M := by omega
    rw [autoRetryGo]
    simp only [dif_pos ha, h a le_rfl ha, List.isEmpty_nil, if_true]
    rcases Nat.eq_zero_or_pos d with rfl | hd2
    · have hlast : ¬ a < M - 1 := by omega
      rw [if_neg hlast]
      have ihh := ih (a + 1) (by omega) (fun i h1 h2 => h i (by omega) h2)
      rw [ihh]
      simp
    · obtain ⟨d2, rfl⟩ : ∃ k, d = k + 1 := ⟨d - 1, by omega⟩
      have hlt : a < M - 1 := by omega
      rw [if_pos hlt]
      have ihh := ih (a + 1) (by omega) (fun i h1 h2 => h i (by omega) h2)
      rw [ihh]
      have hr : List.range' a (d2 + 1) = a :: List.range' (a + 1) d2 := List.range'_succ a d2 1
      simp [hr]

/-- Claim C9: search_with_auto_retry retries up to maxAttempts with the
attempt-indexed delays (attempt+1)*2 seconds on the empty path and
(attempt+1)*3 seconds on the error path; when every attempt errors the last
error is surfaced wrapped in a single summarizing failure after the final
attempt, and when every attempt returns empty the empty list is returned. -/
theorem claim9_auto_retry (ρ : Type) :
    ∀ (maxAttempts : Nat) (out : Nat → Except String (List ρ)) (es : Nat → String),
    0 < maxAttempts →
    ((∀ i, i < maxAttempts → out i = Except.error (es i)) →
      search_with_auto_retry out maxAttempts
        = (RetryOutcome.failedAfter maxAttempts (es (maxAttempts - 1)),
           (List.range (maxAttempts - 1)).map (fun i => (i + 1) * 3)))
    ∧ ((∀ i, i < maxAttempts → out i = Except.ok []) →
      search_with_auto_retry out maxAttempts
        = (RetryOutcome.results [],
           (List.range (maxAttempts - 1)).map (fun i => (i + 1) * 2))) := by
  intro M out es hM
  constructor
  · intro h
    have h2 := autoRetryGo_all_error out es M M 0 (by omega) hM
      (fun i h1 hi => h i hi)
    rw [search_with_auto_retry, h2, List.range_eq_range']
  · intro h
    have h2 := autoRetryGo_all_empty out M M 0 (by omega) (fun i h1 hi => h i hi)
    rw [search_with_auto_retry, h2, List.range_eq_range']

/-- Witness for claim C9: three always-failing attempts sleep 3 then 6
seconds and surface the wrapped last error; three always-empty attempts
sleep 2 then 4 seconds and return the empty list. -/
theorem claim9_witness :
    search_with_auto_retry (fun _ => (Except.error ("boom") : Except String (List Nat))) 3
      = (RetryOutcome.failedAfter 3 ("boom"), [3, 6])
    ∧ search_with_auto_retry (fun _ => (Except.ok ([]) : Except String (List Nat))) 3
      = (RetryOutcome.results [], [2, 4]) := by
  constructor
  · have h := (claim9_auto_retry Nat 3 (fun _ => Except.error ("boom"))
      (fun _ => ("boom")) (by norm_num)).1 (fun i _ => rfl)
    exact h.trans rfl
  · have h := (claim9_auto_retry Nat 3 (fun _ => (Except.ok ([]) : Except String (List Nat)))
      (fun _ => ("unused")) (by norm_num)).2 (fun i _ => rfl)
    exact h.trans rfl

end Craft
